import Mathlib

/-!
Shallow embedding of the selective finite-element assembly engine of
hermes2d (`discrete_problem_selective_assembler.cpp`).

Modelling conventions:
- `double` scaling factors and block weights become `Rat`; the fixed
  threshold `1e-12` becomes the exact rational `1 / 10^12`.
- C++ pointers that may be NULL become `Option`; a raw `bool*` array
  becomes `List Bool`; a `bool**` array becomes `List (List Bool)`
  (a NULL row is modelled as the empty list).
- `int` dof values keep their signedness as `Int`; a negative dof is the
  eliminated-dof sentinel.
- Calls into the sparse-matrix / vector targets are recorded as an
  explicit trace of operations (`MatOp`, `VecOp`) rather than mutating a
  store, so that theorems can speak about which calls a run performs.
-/

namespace Hermes2D

/-- The fixed eligibility threshold `1e-12` from
`form_to_be_assembled`, as an exact rational. -/
def threshold : Rat := mkRat 1 1000000000000

/-- The C `fabs` from `<cmath>`, on the rational model of `double`. -/
def fabs (x : Rat) : Rat := if x < 0 then -x else x

/-- The part of `Traverse::State` the selective assembler reads:
per-space element presence (`current_state->e[i] != NULL`), the
representative element's material marker (`rep->marker`), the markers of
the representative element's edge nodes (`rep->en[k]->marker`) and the
active surface index (`isurf`). -/
structure TState where
  e : List Bool
  repMarker : Int
  enMarkers : List Int
  isurf : Nat
deriving DecidableEq, Repr

/-- Presence of an element for space `i` in a traversal state
(`current_state->e[i]`, absent slots read as not present). -/
def TState.present (st : TState) (i : Nat) : Bool :=
  st.e.getD i false

/-- Marker of the active edge: `current_state->rep->en[current_state->isurf]->marker`. -/
def TState.surfMarker (st : TState) : Int :=
  st.enMarkers.getD st.isurf 0

/-- The fields of `MatrixForm` read by the eligibility predicates:
row space index `i`, column space index `j`, and the scaling factor. -/
structure MatrixForm where
  i : Nat
  j : Nat
  scaling_factor : Rat
deriving DecidableEq, Repr

/-- Embeds `MatrixFormSurf`: a matrix form with the surface-specific area
restriction (`assembleEverywhere` or an explicit marker list). -/
structure MatrixFormSurf extends MatrixForm where
  assembleEverywhere : Bool
  areas_internal : List Int
deriving DecidableEq, Repr

/-- The fields of `VectorForm` read by the eligibility predicates. -/
structure VectorForm where
  i : Nat
  scaling_factor : Rat
deriving DecidableEq, Repr

/-- Embeds `VectorFormSurf`: a vector form with the surface area restriction. -/
structure VectorFormSurf extends VectorForm where
  assembleEverywhere : Bool
  areas_internal : List Int
deriving DecidableEq, Repr

/-- The optional block-weighting table (`this->block_weights`); when
present, `get_A i j` is `block_weights->get_A(i, j)`. -/
def BlockWeights : Type := Nat → Nat → Rat

/-- Embeds `form_to_be_assembled(MatrixForm<Scalar>*, Traverse::State*)`:
eligible iff both spaces have elements in the state, the scaling factor
clears the threshold, and (when a block-weight table is supplied) the
block weight clears the threshold. -/
def form_to_be_assembled_mf (bw : Option BlockWeights) (f : MatrixForm)
    (st : TState) : Bool :=
  if st.present f.i && st.present f.j then
    if fabs f.scaling_factor < threshold then
      false
    else
      match bw with
      | some w => if fabs (w f.i f.j) < threshold then false else true
      | none => true
  else
    false

/-- Embeds `form_to_be_assembled(MatrixFormSurf<Scalar>*, Traverse::State*)`:
the generic matrix predicate, then the active-edge marker must be
non-zero, then "everywhere" or an explicit marker match. -/
def form_to_be_assembled_mfsurf (bw : Option BlockWeights)
    (f : MatrixFormSurf) (st : TState) : Bool :=
  if !form_to_be_assembled_mf bw f.toMatrixForm st then
    false
  else if st.surfMarker == 0 then
    false
  else if f.assembleEverywhere then
    true
  else
    f.areas_internal.any (fun m => m == st.surfMarker)

/-- Embeds `form_to_be_assembled(VectorForm<Scalar>*, Traverse::State*)`:
eligible iff the form's space has an element in the state and the
scaling factor clears the threshold. -/
def form_to_be_assembled_vf (f : VectorForm) (st : TState) : Bool :=
  if !st.present f.i then
    false
  else if fabs f.scaling_factor < threshold then
    false
  else
    true

/-- Embeds `form_to_be_assembled(VectorFormSurf<Scalar>*, Traverse::State*)`:
the generic vector predicate, then the non-zero active-edge marker,
then the area restriction. -/
def form_to_be_assembled_vfsurf (f : VectorFormSurf) (st : TState) : Bool :=
  if !form_to_be_assembled_vf f.toVectorForm st then
    false
  else if st.surfMarker == 0 then
    false
  else if f.assembleEverywhere then
    true
  else
    f.areas_internal.any (fun m => m == st.surfMarker)

/-- Modelled from the spec: the numeric assembly pass (outside this
source file) registers nonzero coordinates on behalf of a form only for
states where `form_to_be_assembled` holds; `regs` stands for the
coordinates it would register when the form is eligible. -/
def registeredOnBehalf (eligible : Bool) (regs : List (Int × Int)) :
    List (Int × Int) :=
  if eligible then regs else []

/-- The mutable state of `DiscreteProblemSelectiveAssembler` touched by
`set_spaces`: the last-seen sequence-number array (`sp_seq`, NULL until
the first binding), the recorded space count, the two structure-reuse
flags, the recorded marker-universe sizes, the recorded form counts, and
the recalculation-cache arrays. -/
structure SelAsm where
  sp_seq : Option (List Int)
  spaces_size : Nat
  matrix_structure_reusable : Bool
  vector_structure_reusable : Bool
  surface_markers_size : Nat
  volume_markers_size : Nat
  mfvol_forms_size : Nat
  vfvol_forms_size : Nat
  mfsurf_forms_size : Nat
  vfsurf_forms_size : Nat
  matrix_surface_recalculation : List Bool
  vector_surface_recalculation : List Bool
  matrix_surface_forms_recalculation : List (List Bool)
  vector_surface_forms_recalculation : List (List Bool)
  matrix_volume_recalculation : List Bool
  vector_volume_recalculation : List Bool
  matrix_volume_forms_recalculation : List (List Bool)
  vector_volume_forms_recalculation : List (List Bool)
deriving DecidableEq, Repr

/-- The sequence-comparison loop of `set_spaces`: walks the recorded
`sp_seq` array alongside the spaces' current sequence numbers, reporting
whether any entry mismatched and returning the updated array
(`sp_seq[i] = new_sp_seq` for every `i`). -/
def seqSweep (old cur : List Int) : List Int × Bool :=
  ((old.zip cur).map Prod.snd, (old.zip cur).any (fun p => p.1 != p.2))

/-- A freshly `calloc`ed `bool*` array of `n` flags: all unset. -/
def freshFlags (n : Nat) : List Bool :=
  List.replicate n false

/-- A freshly rebuilt `bool**` per-marker, per-form array: the outer
array is `calloc`ed to `markers` NULL rows, and when `forms > 0` each
row is `calloc`ed to `forms` unset flags. -/
def freshFormFlags (markers forms : Nat) : List (List Bool) :=
  if 0 < forms then
    List.replicate markers (List.replicate forms false)
  else
    List.replicate markers []

/-- The surface-cache resize block of `set_spaces`, executed when the
mesh's `min_marker_unused` differs from `surface_markers_size`. -/
def resizeSurfaceCaches (mm : Nat) (s : SelAsm) : SelAsm :=
  { s with
    surface_markers_size := mm
    matrix_surface_recalculation := freshFlags mm
    vector_surface_recalculation := freshFlags mm
    matrix_surface_forms_recalculation := freshFormFlags mm s.mfsurf_forms_size
    vector_surface_forms_recalculation := freshFormFlags mm s.vfsurf_forms_size }

/-- The volume-cache resize block of `set_spaces`, executed when the
mesh's `min_marker_unused` differs from `volume_markers_size`. -/
def resizeVolumeCaches (mm : Nat) (s : SelAsm) : SelAsm :=
  { s with
    volume_markers_size := mm
    matrix_volume_recalculation := freshFlags mm
    vector_volume_recalculation := freshFlags mm
    matrix_volume_forms_recalculation := freshFormFlags mm s.mfvol_forms_size
    vector_volume_forms_recalculation := freshFormFlags mm s.vfvol_forms_size }

/-- The sequence-number block of `set_spaces`: on the first binding
(`sp_seq == NULL`) the last-seen array is allocated and `memset` to
`-1` (the spaces' actual sequence numbers are not read); on later
bindings each entry is compared and overwritten, any mismatch clearing
both structure-reuse flags. `cur` lists the current sequence numbers
(`spacesToSet[i]->get_seq()`). -/
def seqStep (cur : List Int) (s : SelAsm) : SelAsm :=
  match s.sp_seq with
  | none =>
      { s with
        spaces_size := cur.length
        sp_seq := some (List.replicate cur.length (-1)) }
  | some old =>
      let sw := seqSweep old cur
      { s with
        sp_seq := some sw.1
        matrix_structure_reusable :=
          if sw.2 then false else s.matrix_structure_reusable
        vector_structure_reusable :=
          if sw.2 then false else s.vector_structure_reusable }

/-- Embeds `DiscreteProblemSelectiveAssembler::set_spaces`: the
sequence-number block, then the surface-cache and volume-cache resize
blocks, each executed when the bound mesh's `min_marker_unused` (`mm`)
differs from the recorded size. -/
def set_spaces (cur : List Int) (mm : Nat) (s : SelAsm) : SelAsm :=
  let s1 := seqStep cur s
  let s2 := if mm ≠ s1.surface_markers_size then resizeSurfaceCaches mm s1 else s1
  if mm ≠ s2.volume_markers_size then resizeVolumeCaches mm s2 else s2

/-- The part of `AsmList<Scalar>` the structural pass reads: the global
dof array (`cnt` is its length); a negative dof is the eliminated-dof
sentinel. -/
structure AsmList where
  dof : List Int
deriving DecidableEq, Repr

/-- Calls made on the sparse-matrix target during
`prepare_sparse_structure`. -/
inductive MatOp where
  | zero : MatOp
  | free : MatOp
  | prealloc : Nat → MatOp
  | preAdd : Int → Int → MatOp
  | alloc : MatOp
deriving DecidableEq, Repr

/-- Calls made on the vector target during `prepare_sparse_structure`. -/
inductive VecOp where
  | zero : VecOp
  | alloc : Nat → VecOp
deriving DecidableEq, Repr

/-- Memory-safety violations the DG branch can commit: reading through
a freed pointer, or freeing it twice. Once one is detected the modelled
run stops (the C++ behaviour is undefined from that point). -/
inductive MemError where
  | useAfterFree : MemError
  | doubleFree : MemError
deriving DecidableEq, Repr

/-- One traversal state as seen by the structural pass: element presence
per space, the per-space assembly lists (`al[i]`, valid where
`e[i]` is present), and — for the DG branch — the edge count of the
representative element (`e[0]->nvert`), the neighbor counts per
(space, edge) and the neighbors' assembly lists per
(space, edge, neighbor). -/
structure StructState where
  e : List Bool
  al : List AsmList
  numEdges : Nat
  neighborCounts : List (List Nat)
  neighborAL : List (List (List AsmList))
deriving DecidableEq, Repr

/-- Lookup in the `blocks` coupling table returned by
`wf->get_blocks(...)`. -/
def blockAt (blocks : List (List Bool)) (m n : Nat) : Bool :=
  (blocks.getD m []).getD n false

/-- The innermost DG loop over the neighbor assembly list `an`
(`for j < an->cnt`). Each iteration ends with `delete an;`, so the very
next loop-condition read of `an->cnt` is a use-after-free: `anAlive`
tracks whether `an` is still allocated and every access checks it
first. `bme`/`bem` are `blocks[m][el]` and `blocks[el][m]`; `ami` is
`am->dof[i]`. -/
def jLoop (bme bem : Bool) (ami : Int) (an : AsmList) (j : Nat)
    (anAlive : Bool) (acc : List MatOp) :
    List MatOp × Bool × Option MemError :=
  if !anAlive then
    (acc, anAlive, some MemError.useAfterFree)
  else if h : j < an.dof.length then
    let dj := an.dof.getD j 0
    let acc' := acc ++
      (if 0 ≤ dj then
        (if bme then [MatOp.preAdd ami dj] else []) ++
          (if bem then [MatOp.preAdd dj ami] else [])
      else [])
    jLoop bme bem ami an (j + 1) false acc'
  else
    (acc, anAlive, none)
termination_by an.dof.length - j
decreasing_by simp_wf; omega

/-- The DG loop over the local assembly list `am`
(`for i < am->cnt`, body guarded by `am->dof[i] >= 0`); `rest` is the
remaining suffix of `am->dof`. `am` itself lives on the stack array
`al`, but the aliveness of `an` threads through the iterations. -/
def iLoop (bme bem : Bool) (an : AsmList) :
    List Int → Bool → List MatOp → Option MemError →
    List MatOp × Bool × Option MemError
  | [], anAlive, acc, err => (acc, anAlive, err)
  | ami :: rest, anAlive, acc, err =>
    match err with
    | some e => (acc, anAlive, some e)
    | none =>
      if 0 ≤ ami then
        let r := jLoop bme bem ami an 0 anAlive acc
        iLoop bme bem an rest r.2.1 r.1 r.2.2
      else
        iLoop bme bem an rest anAlive acc none

/-- One body iteration of the DG neighbor loop: when the block mask
couples `m` with `el` (either way) and `m`'s element is present, a
fresh `AsmList` is filled from the neighbor element and the `i`/`j`
loops pretend-assemble it. -/
def neighBody (blocks : List (List Bool)) (st : StructState)
    (m el ed neigh : Nat) (acc : List MatOp) :
    List MatOp × Bool × Option MemError :=
  if (blockAt blocks m el || blockAt blocks el m) && st.e.getD m false then
    let am := st.al.getD m ⟨[]⟩
    let an := ((st.neighborAL.getD el []).getD ed []).getD neigh ⟨[]⟩
    iLoop (blockAt blocks m el) (blockAt blocks el m) an am.dof true acc none
  else
    (acc, true, none)

/-- The DG loop over the neighbors of one (space, edge) pair
(`for neigh < neighbor_elems_counts[el][ed]`). The loop condition reads
`neighbor_elems_counts`, and the body ends with the deallocation block
that frees `neighbor_elems_arrays` and `neighbor_elems_counts`
(lines 163–176 sit inside the `neigh` loop), so `arraysAlive` is
cleared after the first body iteration and the next condition check is
a use-after-free. -/
def neighLoop (blocks : List (List Bool)) (st : StructState)
    (m el ed : Nat) (neigh : Nat) (arraysAlive : Bool)
    (acc : List MatOp) : List MatOp × Bool × Option MemError :=
  if !arraysAlive then
    (acc, arraysAlive, some MemError.useAfterFree)
  else if h : neigh < (st.neighborCounts.getD el []).getD ed 0 then
    match neighBody blocks st m el ed neigh acc with
    | (acc', _, some e) => (acc', arraysAlive, some e)
    | (acc', _, none) =>
      if arraysAlive then
        neighLoop blocks st m el ed (neigh + 1) false acc'
      else
        (acc', arraysAlive, some MemError.doubleFree)
  else
    (acc, arraysAlive, none)
termination_by (st.neighborCounts.getD el []).getD ed 0 - neigh
decreasing_by
  simp_wf
  simp only [List.getD, List.get?_eq_getElem?] at *
  omega

/-- The DG loop over edges (`for ed < num_edges`); `num_edges` is a
live stack variable, so only the inner loops can fault. -/
def edLoop (blocks : List (List Bool)) (st : StructState) (m el : Nat) :
    List Nat → Bool → List MatOp → Option MemError →
    List MatOp × Bool × Option MemError
  | [], alive, acc, err => (acc, alive, err)
  | ed :: rest, alive, acc, err =>
    match err with
    | some e => (acc, alive, some e)
    | none =>
      let r := neighLoop blocks st m el ed 0 alive acc
      edLoop blocks st m el rest r.2.1 r.1 r.2.2

/-- The DG loop over the neighbour-side space (`for el < spaces_size`). -/
def elLoop (blocks : List (List Bool)) (st : StructState) (m : Nat) :
    List Nat → Bool → List MatOp → Option MemError →
    List MatOp × Bool × Option MemError
  | [], alive, acc, err => (acc, alive, err)
  | el :: rest, alive, acc, err =>
    match err with
    | some e => (acc, alive, some e)
    | none =>
      let r := edLoop blocks st m el (List.range st.numEdges) alive acc err
      elLoop blocks st m rest r.2.1 r.1 r.2.2

/-- The outer DG loop (`for m < spaces_size`); `K` is `spaces_size`. -/
def mLoop (K : Nat) (blocks : List (List Bool)) (st : StructState) :
    List Nat → Bool → List MatOp → Option MemError →
    List MatOp × Bool × Option MemError
  | [], alive, acc, err => (acc, alive, err)
  | m :: rest, alive, acc, err =>
    match err with
    | some e => (acc, alive, some e)
    | none =>
      let r := elLoop blocks st m (List.range K) alive acc err
      mLoop K blocks st rest r.2.1 r.1 r.2.2

/-- The whole DG pre-add block of `prepare_sparse_structure` for one
traversal state: the matrix calls it performs, and the first detected
memory-safety violation (`none` when the run is clean, which requires
that no neighbor body ever executes). -/
def dgStateRun (K : Nat) (blocks : List (List Bool)) (st : StructState) :
    List MatOp × Option MemError :=
  let r := mLoop K blocks st (List.range K) true [] none
  (r.1, r.2.2)

/-- The non-DG local-coupling block of `prepare_sparse_structure` for
one traversal state: for every block `(m, n)` allowed by `blocks` with
both elements present, every pair of non-sentinel dofs of the two
assembly lists is registered with `pre_add_ij`. -/
def localOps (K : Nat) (blocks : List (List Bool)) (st : StructState) :
    List MatOp :=
  (List.range K).flatMap (fun m =>
    (List.range K).flatMap (fun n =>
      if blockAt blocks m n && st.e.getD m false && st.e.getD n false then
        (st.al.getD m ⟨[]⟩).dof.flatMap (fun di =>
          if 0 ≤ di then
            (st.al.getD n ⟨[]⟩).dof.filterMap (fun dj =>
              if 0 ≤ dj then some (MatOp.preAdd di dj) else none)
          else [])
      else []))

/-- The inputs `prepare_sparse_structure` reads that are fixed across a
call: the global dof count, the space count, the coupling table from
`wf->get_blocks(...)`, the weak form's DG flag, and the traversal
states with their assembly data. -/
structure ProblemData where
  ndof : Nat
  spaces_size : Nat
  blocks : List (List Bool)
  isDG : Bool
  states : List StructState
deriving DecidableEq, Repr

/-- The two structure-reuse flags of the assembler, as read and written
by `prepare_sparse_structure`. -/
structure AsmFlags where
  matrix_structure_reusable : Bool
  vector_structure_reusable : Bool
deriving DecidableEq, Repr

/-- The work of the structural pass on one traversal state: the DG
block when the weak form has DG forms, then the local-coupling block
(skipped here once a memory-safety violation has been detected, since
the C++ behaviour is undefined from that point). -/
def stateStep (pd : ProblemData) (r : List MatOp × Option MemError)
    (st : StructState) : List MatOp × Option MemError :=
  match r.2 with
  | some _ => r
  | none =>
    if pd.isDG then
      let d := dgStateRun pd.spaces_size pd.blocks st
      match d.2 with
      | some e => (r.1 ++ d.1, some e)
      | none => (r.1 ++ d.1 ++ localOps pd.spaces_size pd.blocks st, none)
    else
      (r.1 ++ localOps pd.spaces_size pd.blocks st, none)

/-- The matrix calls of the full structural pass of one rebuild: the
loop over all traversal states. -/
def structuralPass (pd : ProblemData) : List MatOp × Option MemError :=
  pd.states.foldl (stateStep pd) ([], none)

/-- The result of one `prepare_sparse_structure` call: the updated
reuse flags, the traces of calls on the matrix and vector targets, the
vector's length on return, and the first detected memory-safety
violation of the DG branch (if any). -/
structure PrepResult where
  flags : AsmFlags
  matOps : List MatOp
  vecOps : List VecOp
  rhsLen : Nat
  memError : Option MemError
deriving DecidableEq, Repr

/-- Embeds `DiscreteProblemSelectiveAssembler::prepare_sparse_structure`.
`hasMat` / `hasRhs` model the nullness of the `mat` / `rhs` arguments;
`rhsLen` is `rhs->length()` on entry. In source order: re-zero the
matrix when reusable; re-zero (or first-allocate) the vector when
reusable; otherwise rebuild the matrix structure (free, prealloc,
pre-add pass over all states, alloc) and set its flag; otherwise
allocate the vector and set its flag. -/
def prepare_sparse_structure (pd : ProblemData) (hasMat hasRhs : Bool)
    (s : AsmFlags) (rhsLen : Nat) : PrepResult :=
  let matOps0 :=
    if s.matrix_structure_reusable && hasMat then [MatOp.zero] else []
  let vz : List VecOp × Nat :=
    if s.vector_structure_reusable && hasRhs then
      if rhsLen = 0 then ([VecOp.alloc pd.ndof], pd.ndof)
      else ([VecOp.zero], rhsLen)
    else ([], rhsLen)
  let mr : Bool × List MatOp × Option MemError :=
    if !s.matrix_structure_reusable && hasMat then
      let sp := structuralPass pd
      (true, [MatOp.free, MatOp.prealloc pd.ndof] ++ sp.1 ++ [MatOp.alloc],
        sp.2)
    else
      (s.matrix_structure_reusable, [], none)
  let vr : Bool × List VecOp × Nat :=
    if !s.vector_structure_reusable && hasRhs then
      (true, [VecOp.alloc pd.ndof], pd.ndof)
    else
      (s.vector_structure_reusable, [], vz.2)
  { flags :=
      { matrix_structure_reusable := mr.1
        vector_structure_reusable := vr.1 }
    matOps := matOps0 ++ mr.2.1
    vecOps := vz.1 ++ vr.2.1
    rhsLen := vr.2.2
    memError := mr.2.2 }

/-- Effect of one matrix call on the sparsity pattern: `free` discards
it, `pre_add_ij` appends a coordinate, `zero`, `prealloc` and `alloc`
leave it unchanged (`zero` only clears numeric values; `alloc` commits
the pattern). -/
def applyMatOp (pat : List (Int × Int)) : MatOp → List (Int × Int)
  | MatOp.zero => pat
  | MatOp.free => []
  | MatOp.prealloc _ => pat
  | MatOp.preAdd i j => pat ++ [(i, j)]
  | MatOp.alloc => pat

/-- The sparsity pattern after a trace of matrix calls. -/
def applyMatOps (pat : List (Int × Int)) (ops : List MatOp) :
    List (Int × Int) :=
  ops.foldl applyMatOp pat

/-- Every `pre_add_ij` call in a trace of matrix operations has a
non-negative row and a non-negative column index. -/
def preAddsNonneg (ops : List MatOp) : Prop :=
  ∀ i j : Int, MatOp.preAdd i j ∈ ops → 0 ≤ i ∧ 0 ≤ j

/-! ## Concrete instances used by witnesses and counterexamples -/

/-- An all-true two-field coupling table. -/
def blocksAllTrue : List (List Bool) := [[true, true], [true, true]]

/-- A traversal state with both fields present, field 0 contributing
the three unconstrained dofs `0, 1, 2` and field 1 the dofs `3, 4`. -/
def stTwoField : StructState :=
  { e := [true, true], al := [⟨[0, 1, 2]⟩, ⟨[3, 4]⟩], numEdges := 0,
    neighborCounts := [], neighborAL := [] }

/-- A one-field DG configuration whose single edge has two neighbor
elements (a non-conforming interface): the local assembly list holds
dof `0`, the first neighbor's list dof `1`, the second's dof `2`. -/
def stTwoNeighbors : StructState :=
  { e := [true], al := [⟨[0]⟩], numEdges := 1,
    neighborCounts := [[2]], neighborAL := [[[⟨[1]⟩, ⟨[2]⟩]]] }

/-- A small non-DG problem: one field, one dof, one state, with an
eliminated (negative) dof alongside the real one. -/
def pdOneField : ProblemData :=
  { ndof := 1, spaces_size := 1, blocks := [[true]], isDG := false,
    states := [⟨[true], [⟨[0, -1]⟩], 0, [], []⟩] }

/-- A two-field non-DG problem around `stTwoField`. -/
def pdTwoField : ProblemData :=
  { ndof := 5, spaces_size := 2, blocks := blocksAllTrue, isDG := false,
    states := [stTwoField] }

/-- Assembler bookkeeping with one space already seen and deliberately
stale cache entries, for the resize witness. -/
def selAsmStale : SelAsm :=
  { sp_seq := some [4], spaces_size := 1,
    matrix_structure_reusable := true, vector_structure_reusable := true,
    surface_markers_size := 1, volume_markers_size := 1,
    mfvol_forms_size := 1, vfvol_forms_size := 1,
    mfsurf_forms_size := 1, vfsurf_forms_size := 1,
    matrix_surface_recalculation := [true],
    vector_surface_recalculation := [true],
    matrix_surface_forms_recalculation := [[true]],
    vector_surface_forms_recalculation := [[true]],
    matrix_volume_recalculation := [true],
    vector_volume_recalculation := [true],
    matrix_volume_forms_recalculation := [[true]],
    vector_volume_forms_recalculation := [[true]] }

/-- Assembler bookkeeping before any binding (`sp_seq == NULL`), as the
constructor leaves it. -/
def selAsmFresh : SelAsm :=
  { sp_seq := none, spaces_size := 0,
    matrix_structure_reusable := false, vector_structure_reusable := false,
    surface_markers_size := 0, volume_markers_size := 0,
    mfvol_forms_size := 0, vfvol_forms_size := 0,
    mfsurf_forms_size := 0, vfsurf_forms_size := 0,
    matrix_surface_recalculation := [], vector_surface_recalculation := [],
    matrix_surface_forms_recalculation := [],
    vector_surface_forms_recalculation := [],
    matrix_volume_recalculation := [], vector_volume_recalculation := [],
    matrix_volume_forms_recalculation := [],
    vector_volume_forms_recalculation := [] }

/-- Every flag of a rebuilt per-marker, per-form cache array is unset
and the array covers exactly the current marker universe. -/
def FreshCaches (s : SelAsm) (mm : Nat) : Prop :=
  s.surface_markers_size = mm ∧ s.volume_markers_size = mm ∧
  s.matrix_surface_recalculation = List.replicate mm false ∧
  s.vector_surface_recalculation = List.replicate mm false ∧
  s.matrix_volume_recalculation = List.replicate mm false ∧
  s.vector_volume_recalculation = List.replicate mm false ∧
  (s.matrix_surface_forms_recalculation.length = mm ∧
    ∀ row ∈ s.matrix_surface_forms_recalculation, ∀ b ∈ row, b = false) ∧
  (s.vector_surface_forms_recalculation.length = mm ∧
    ∀ row ∈ s.vector_surface_forms_recalculation, ∀ b ∈ row, b = false) ∧
  (s.matrix_volume_forms_recalculation.length = mm ∧
    ∀ row ∈ s.matrix_volume_forms_recalculation, ∀ b ∈ row, b = false) ∧
  (s.vector_volume_forms_recalculation.length = mm ∧
    ∀ row ∈ s.vector_volume_forms_recalculation, ∀ b ∈ row, b = false)

/-! ## Theorems -/

/-- Sanity check: the threshold is the exact value of the literal
`1e-12`. -/
theorem threshold_eq_literal : threshold = 1 / 1000000000000 := by
  norm_num [threshold]

theorem form_to_be_assembled_mf_small (bw : Option BlockWeights)
    (f : MatrixForm) (st : TState)
    (h : fabs f.scaling_factor < threshold) :
    form_to_be_assembled_mf bw f st = false := by
  by_cases hp : (st.present f.i && st.present f.j) = true
  · simp [form_to_be_assembled_mf, hp, h]
  · simp [form_to_be_assembled_mf, hp]

theorem form_to_be_assembled_mf_small_weight (w : BlockWeights)
    (f : MatrixForm) (st : TState)
    (h : fabs (w f.i f.j) < threshold) :
    form_to_be_assembled_mf (some w) f st = false := by
  unfold form_to_be_assembled_mf
  split
  · simp [h]
  · rfl

theorem form_to_be_assembled_vf_small (f : VectorForm) (st : TState)
    (h : fabs f.scaling_factor < threshold) :
    form_to_be_assembled_vf f st = false := by
  by_cases hp : (!st.present f.i) = true
  · simp [form_to_be_assembled_vf, hp]
  · simp [form_to_be_assembled_vf, hp, h]

/-- C2 (threshold law): for every matrix form whose scaling factor is
below the `1e-12` threshold in absolute value — or, when a
block-weighting table is supplied, whose block weight is below it — and
for every vector form with a below-threshold scaling factor,
`form_to_be_assembled` answers `false` on every traversal state; hence
the (spec-modelled) numeric pass registers no nonzero coordinate on
behalf of such a form. -/
theorem threshold_law (bw : Option BlockWeights) (mf : MatrixForm)
    (vf : VectorForm) (st st' : TState) (regs : List (Int × Int)) :
    (fabs mf.scaling_factor < threshold →
      form_to_be_assembled_mf bw mf st = false) ∧
    (∀ w : BlockWeights, bw = some w → fabs (w mf.i mf.j) < threshold →
      form_to_be_assembled_mf bw mf st = false) ∧
    (fabs vf.scaling_factor < threshold →
      form_to_be_assembled_vf vf st' = false) ∧
    (fabs mf.scaling_factor < threshold →
      registeredOnBehalf (form_to_be_assembled_mf bw mf st) regs = []) ∧
    (fabs vf.scaling_factor < threshold →
      registeredOnBehalf (form_to_be_assembled_vf vf st') regs = []) := by
  refine ⟨?_, ?_, ?_, ?_, ?_⟩
  · exact form_to_be_assembled_mf_small bw mf st
  · intro w hw h
    subst hw
    exact form_to_be_assembled_mf_small_weight w mf st h
  · exact form_to_be_assembled_vf_small vf st'
  · intro h
    rw [form_to_be_assembled_mf_small bw mf st h]
    rfl
  · intro h
    rw [form_to_be_assembled_vf_small vf st' h]
    rfl

/-- Witness for C2 at a concrete input: a volume matrix form with
scaling factor `1e-13` and a vector form with scaling factor `0`, both
on a state where their elements are present. -/
theorem threshold_law_witness :
    fabs (mkRat 1 10000000000000) < threshold ∧
    fabs (0 : Rat) < threshold ∧
    form_to_be_assembled_mf none ⟨0, 1, mkRat 1 10000000000000⟩
      ⟨[true, true], 1, [], 0⟩ = false ∧
    form_to_be_assembled_vf ⟨0, 0⟩ ⟨[true, true], 1, [], 0⟩ = false :=
  ⟨by decide, by decide,
    (threshold_law none ⟨0, 1, mkRat 1 10000000000000⟩ ⟨0, 0⟩
      ⟨[true, true], 1, [], 0⟩ ⟨[true, true], 1, [], 0⟩ []).1 (by decide),
    (threshold_law none ⟨0, 1, mkRat 1 10000000000000⟩ ⟨0, 0⟩
      ⟨[true, true], 1, [], 0⟩ ⟨[true, true], 1, [], 0⟩ []).2.2.1 (by decide)⟩

/-- C8 (marker-zero law): a non-DG surface form — matrix or vector — is
never eligible on a state whose active edge has marker `0`, whatever
its area restriction and scaling factor. -/
theorem surface_marker_zero_never_eligible (bw : Option BlockWeights)
    (mf : MatrixFormSurf) (vf : VectorFormSurf) (st : TState)
    (h : st.surfMarker = 0) :
    form_to_be_assembled_mfsurf bw mf st = false ∧
    form_to_be_assembled_vfsurf vf st = false := by
  constructor
  · unfold form_to_be_assembled_mfsurf
    split
    · rfl
    · simp [h]
  · unfold form_to_be_assembled_vfsurf
    split
    · rfl
    · simp [h]

theorem freshFormFlags_length (m f : Nat) :
    (freshFormFlags m f).length = m := by
  unfold freshFormFlags
  split <;> simp

theorem freshFormFlags_clear (m f : Nat) :
    ∀ row ∈ freshFormFlags m f, ∀ b ∈ row, b = false := by
  unfold freshFormFlags
  split <;> intro row hrow b hb <;> rw [List.eq_of_mem_replicate hrow] at hb
  · exact List.eq_of_mem_replicate hb
  · exact absurd hb (List.not_mem_nil b)

theorem seqStep_surface_markers (cur : List Int) (s : SelAsm) :
    (seqStep cur s).surface_markers_size = s.surface_markers_size := by
  unfold seqStep
  split <;> rfl

theorem seqStep_volume_markers (cur : List Int) (s : SelAsm) :
    (seqStep cur s).volume_markers_size = s.volume_markers_size := by
  unfold seqStep
  split <;> rfl

/-- The resize blocks of `set_spaces` touch neither the last-seen
array nor the structure-reuse flags. -/
theorem set_spaces_seq_projections (cur : List Int) (mm : Nat)
    (s : SelAsm) :
    (set_spaces cur mm s).sp_seq = (seqStep cur s).sp_seq ∧
    (set_spaces cur mm s).matrix_structure_reusable
        = (seqStep cur s).matrix_structure_reusable ∧
    (set_spaces cur mm s).vector_structure_reusable
        = (seqStep cur s).vector_structure_reusable := by
  simp only [set_spaces]
  split <;> split <;> exact ⟨rfl, rfl, rfl⟩

/-- On a rebinding (`sp_seq` already allocated), `set_spaces` updates
the last-seen array to the swept values and clears both reuse flags
exactly when some entry mismatched. -/
theorem set_spaces_rebinding (cur : List Int) (mm : Nat) (s : SelAsm)
    (old : List Int) (hsp : s.sp_seq = some old) :
    (set_spaces cur mm s).sp_seq = some (seqSweep old cur).1 ∧
    (set_spaces cur mm s).matrix_structure_reusable =
      (if (seqSweep old cur).2 then false else s.matrix_structure_reusable) ∧
    (set_spaces cur mm s).vector_structure_reusable =
      (if (seqSweep old cur).2 then false else s.vector_structure_reusable) := by
  obtain ⟨p1, p2, p3⟩ := set_spaces_seq_projections cur mm s
  rw [p1, p2, p3]
  unfold seqStep
  rw [hsp]
  exact ⟨rfl, rfl, rfl⟩

/-- On the first binding (`sp_seq == NULL`), `set_spaces` allocates the
last-seen array filled with the sentinel `-1` and leaves the reuse
flags untouched; the spaces' actual sequence numbers are not read. -/
theorem set_spaces_first_binding (cur : List Int) (mm : Nat) (s : SelAsm)
    (hsp : s.sp_seq = none) :
    (set_spaces cur mm s).sp_seq
        = some (List.replicate cur.length (-1)) ∧
    (set_spaces cur mm s).matrix_structure_reusable
        = s.matrix_structure_reusable ∧
    (set_spaces cur mm s).vector_structure_reusable
        = s.vector_structure_reusable := by
  obtain ⟨p1, p2, p3⟩ := set_spaces_seq_projections cur mm s
  rw [p1, p2, p3]
  unfold seqStep
  rw [hsp]
  exact ⟨rfl, rfl, rfl⟩

/-- C3 (change sensitivity): on any binding after the first, a
sequence-number mismatch at any field clears both structure-reuse
flags and the last-seen array is updated to the current values. -/
theorem set_spaces_seq_mismatch_clears_flags (s : SelAsm)
    (old cur : List Int) (mm : Nat) (i : Nat) (hsp : s.sp_seq = some old)
    (hlen : old.length = cur.length) (hi : i < old.length)
    (hne : old.getD i 0 ≠ cur.getD i 0) :
    (set_spaces cur mm s).matrix_structure_reusable = false ∧
    (set_spaces cur mm s).vector_structure_reusable = false ∧
    (set_spaces cur mm s).sp_seq = some cur := by
  obtain ⟨h1, h2, h3⟩ := set_spaces_rebinding cur mm s old hsp
  have hic : i < cur.length := hlen ▸ hi
  have hmis : (seqSweep old cur).2 = true := by
    simp only [seqSweep, List.any_eq_true]
    refine ⟨(old[i], cur[i]), ?_, ?_⟩
    · have hz : i < (old.zip cur).length := by
        rw [List.length_zip]
        omega
      have hmem := List.getElem_mem hz
      rw [List.getElem_zip] at hmem
      exact hmem
    · rw [List.getD_eq_getElem old 0 hi, List.getD_eq_getElem cur 0 hic]
        at hne
      exact bne_iff_ne.mpr hne
  have hupd : (seqSweep old cur).1 = cur := by
    simp only [seqSweep]
    exact List.map_snd_zip old cur (le_of_eq hlen.symm)
  rw [h1, h2, h3, hmis, hupd]
  exact ⟨rfl, rfl, rfl⟩

/-- Witness for C3: one field whose sequence number moved from `4` to
`5` between bindings. -/
theorem set_spaces_seq_mismatch_clears_flags_witness :
    (selAsmStale.sp_seq = some [4] ∧ (4 : Int) ≠ 5) ∧
    (set_spaces [5] 1 selAsmStale).matrix_structure_reusable = false ∧
    (set_spaces [5] 1 selAsmStale).vector_structure_reusable = false ∧
    (set_spaces [5] 1 selAsmStale).sp_seq = some [5] :=
  ⟨⟨rfl, by decide⟩,
    set_spaces_seq_mismatch_clears_flags selAsmStale [4] [5] 1 0 rfl rfl
      (by decide) (by decide)⟩

/-- C9 (cache resize safety): when the bound mesh's marker-universe
size differs from both recorded sizes, every recalculation-cache array
is replaced by a freshly zero-initialized one sized to the new marker
count, so every entry — in particular every entry at or beyond the old
bound — starts unset. -/
theorem set_spaces_resize_fresh_caches (s : SelAsm) (cur : List Int)
    (mm : Nat) (hs : mm ≠ s.surface_markers_size)
    (hv : mm ≠ s.volume_markers_size) :
    FreshCaches (set_spaces cur mm s) mm := by
  have e1 : (if mm ≠ (seqStep cur s).surface_markers_size then
        resizeSurfaceCaches mm (seqStep cur s) else seqStep cur s)
      = resizeSurfaceCaches mm (seqStep cur s) :=
    if_pos (by rw [seqStep_surface_markers]; exact hs)
  have e2 : (if mm ≠ (resizeSurfaceCaches mm (seqStep cur s)).volume_markers_size
        then resizeVolumeCaches mm (resizeSurfaceCaches mm (seqStep cur s))
        else resizeSurfaceCaches mm (seqStep cur s))
      = resizeVolumeCaches mm (resizeSurfaceCaches mm (seqStep cur s)) :=
    if_pos (by
      show mm ≠ (seqStep cur s).volume_markers_size
      rw [seqStep_volume_markers]; exact hv)
  simp only [set_spaces]
  rw [e1, e2]
  unfold FreshCaches
  exact ⟨rfl, rfl, rfl, rfl, rfl, rfl,
    ⟨freshFormFlags_length mm _, freshFormFlags_clear mm _⟩,
    ⟨freshFormFlags_length mm _, freshFormFlags_clear mm _⟩,
    ⟨freshFormFlags_length mm _, freshFormFlags_clear mm _⟩,
    ⟨freshFormFlags_length mm _, freshFormFlags_clear mm _⟩⟩

/-- Witness for C9: the marker universe grows from 1 to 2 over a state
with every cache entry deliberately stale. -/
theorem set_spaces_resize_fresh_caches_witness :
    (2 ≠ selAsmStale.surface_markers_size ∧
      2 ≠ selAsmStale.volume_markers_size) ∧
    FreshCaches (set_spaces [4] 2 selAsmStale) 2 :=
  ⟨⟨by decide, by decide⟩,
    set_spaces_resize_fresh_caches selAsmStale [4] 2 (by decide)
      (by decide)⟩

theorem seqSweep_sentinel_mismatch (cur : List Int) (hne : cur ≠ [])
    (hnn : ∀ x ∈ cur, 0 ≤ x) :
    (seqSweep (List.replicate cur.length (-1)) cur).2 = true := by
  cases cur with
  | nil => exact absurd rfl hne
  | cons c t =>
    have hc : (0 : Int) ≤ c := hnn c (List.mem_cons_self c t)
    have hcc : (-1 : Int) ≠ c := by omega
    simp [seqSweep, List.replicate_succ, bne_iff_ne, hcc]

/-- C10: the first `set_spaces` call records only the sentinel `-1`
for every field, not the actual sequence numbers; rebinding the very
same spaces (all sequence numbers non-negative) therefore mismatches
and clears both reuse flags even though nothing changed. -/
theorem first_set_spaces_sentinel_forces_rebuild (s : SelAsm)
    (cur : List Int) (mm1 mm2 : Nat) (h0 : s.sp_seq = none)
    (hne : cur ≠ []) (hnn : ∀ x ∈ cur, 0 ≤ x) :
    (set_spaces cur mm1 s).sp_seq
        = some (List.replicate cur.length (-1)) ∧
    (set_spaces cur mm2 (set_spaces cur mm1 s)).matrix_structure_reusable
        = false ∧
    (set_spaces cur mm2 (set_spaces cur mm1 s)).vector_structure_reusable
        = false := by
  obtain ⟨h1, _, _⟩ := set_spaces_first_binding cur mm1 s h0
  obtain ⟨_, h2, h3⟩ :=
    set_spaces_rebinding cur mm2 (set_spaces cur mm1 s)
      (List.replicate cur.length (-1)) h1
  rw [h2, h3, seqSweep_sentinel_mismatch cur hne hnn]
  exact ⟨h1, rfl, rfl⟩

/-- Witness for C10: binding one unchanged space (sequence number 7)
twice to a fresh assembler. -/
theorem first_set_spaces_sentinel_forces_rebuild_witness :
    (selAsmFresh.sp_seq = none ∧ [(7 : Int)] ≠ [] ∧
      ∀ x ∈ [(7 : Int)], 0 ≤ x) ∧
    (set_spaces [7] 1 selAsmFresh).sp_seq = some (List.replicate 1 (-1)) ∧
    (set_spaces [7] 1 (set_spaces [7] 1 selAsmFresh)).matrix_structure_reusable
        = false ∧
    (set_spaces [7] 1 (set_spaces [7] 1 selAsmFresh)).vector_structure_reusable
        = false :=
  ⟨⟨rfl, by decide, by decide⟩,
    first_set_spaces_sentinel_forces_rebuild selAsmFresh [7] 1 1 rfl
      (by decide) (by decide)⟩

/-- Witness for C8 at a concrete input: an "everywhere" surface matrix
form and surface vector form with scaling factor `1`, on a state whose
active edge has marker `0` while its elements are present. -/
theorem surface_marker_zero_never_eligible_witness :
    TState.surfMarker ⟨[true, true], 1, [0, 3], 0⟩ = 0 ∧
    form_to_be_assembled_mfsurf none ⟨⟨0, 1, 1⟩, true, []⟩
      ⟨[true, true], 1, [0, 3], 0⟩ = false ∧
    form_to_be_assembled_vfsurf ⟨⟨0, 1⟩, true, []⟩
      ⟨[true, true], 1, [0, 3], 0⟩ = false :=
  ⟨by decide,
    (surface_marker_zero_never_eligible none ⟨⟨0, 1, 1⟩, true, []⟩
      ⟨⟨0, 1⟩, true, []⟩ ⟨[true, true], 1, [0, 3], 0⟩ (by decide)).1,
    (surface_marker_zero_never_eligible none ⟨⟨0, 1, 1⟩, true, []⟩
      ⟨⟨0, 1⟩, true, []⟩ ⟨[true, true], 1, [0, 3], 0⟩ (by decide)).2⟩

/-- C7 (end-to-end count): two fields, all-true coupling, one state
with 3 unconstrained dofs in field 0 and 2 in field 1, no DG forms:
the local block loop performs exactly 25 `pre_add_ij` registrations —
9 in block (0,0), 6 in each cross block, 4 in block (1,1). -/
theorem two_field_state_registration_count :
    (localOps 2 blocksAllTrue stTwoField).length = 25 ∧
    (localOps 2 blocksAllTrue stTwoField).countP
      (fun op => match op with
        | MatOp.preAdd i j => decide (i ≤ 2) && decide (j ≤ 2)
        | _ => false) = 9 ∧
    (localOps 2 blocksAllTrue stTwoField).countP
      (fun op => match op with
        | MatOp.preAdd i j => decide (i ≤ 2) && decide (3 ≤ j)
        | _ => false) = 6 ∧
    (localOps 2 blocksAllTrue stTwoField).countP
      (fun op => match op with
        | MatOp.preAdd i j => decide (3 ≤ i) && decide (j ≤ 2)
        | _ => false) = 6 ∧
    (localOps 2 blocksAllTrue stTwoField).countP
      (fun op => match op with
        | MatOp.preAdd i j => decide (3 ≤ i) && decide (3 ≤ j)
        | _ => false) = 4 := by
  decide

/-- C4 counterexample: a successful `prepare_sparse_structure` call
with no matrix target supplied (residual-only assembly) returns with
`matrix_structure_reusable` still false, even though the vector side
completed and set its own flag. The claim asserts both flags are true
after any successful call. -/
theorem reusable_flag_left_false_without_matrix :
    (prepare_sparse_structure pdOneField false true
        ⟨false, false⟩ 0).flags.matrix_structure_reusable = false ∧
    (prepare_sparse_structure pdOneField false true
        ⟨false, false⟩ 0).flags.vector_structure_reusable = true := by
  decide

/-- C4 amended: after a `prepare_sparse_structure` call, each
structure-reuse flag is true whenever the corresponding target was
supplied; with the target absent the flag is simply left unchanged. -/
theorem prepare_flags_track_supplied_targets (pd : ProblemData)
    (hasMat hasRhs : Bool) (s : AsmFlags) (rhsLen : Nat) :
    (prepare_sparse_structure pd hasMat hasRhs s
        rhsLen).flags.matrix_structure_reusable
      = (hasMat || s.matrix_structure_reusable) ∧
    (prepare_sparse_structure pd hasMat hasRhs s
        rhsLen).flags.vector_structure_reusable
      = (hasRhs || s.vector_structure_reusable) := by
  obtain ⟨ms, vs⟩ := s
  cases hasMat <;> cases hasRhs <;> cases ms <;> cases vs <;>
    simp [prepare_sparse_structure]

theorem prepare_full_call_flags (pd : ProblemData) (s0 : AsmFlags)
    (rhsLen : Nat) :
    (prepare_sparse_structure pd true true s0 rhsLen).flags
      = ⟨true, true⟩ := by
  obtain ⟨ms, vs⟩ := s0
  cases ms <;> cases vs <;> simp [prepare_sparse_structure]

theorem prepare_full_call_rhsLen (pd : ProblemData) (s0 : AsmFlags)
    (rhsLen : Nat) (h : 0 < pd.ndof) :
    (prepare_sparse_structure pd true true s0 rhsLen).rhsLen ≠ 0 := by
  obtain ⟨ms, vs⟩ := s0
  cases ms <;> cases vs <;> by_cases hr : rhsLen = 0 <;>
    simp [prepare_sparse_structure, hr] <;> omega

theorem prepare_reusable_rezero (pd : ProblemData) (rhsLen : Nat)
    (hr : rhsLen ≠ 0) :
    (prepare_sparse_structure pd true true ⟨true, true⟩ rhsLen).matOps
        = [MatOp.zero] ∧
    (prepare_sparse_structure pd true true ⟨true, true⟩ rhsLen).vecOps
        = [VecOp.zero] := by
  simp [prepare_sparse_structure, hr]

/-- C1 (idempotence): two consecutive `prepare_sparse_structure` calls
with both targets supplied, the same problem data (unchanged fields, so
no intervening flag clearing) and at least one dof: the second call
performs exactly one `zero` on the matrix and one `zero` on the vector
— no `pre_add_ij`, `prealloc` or `alloc` on the matrix — and the
sparsity pattern after the second call is bit-identical to the pattern
after the first. -/
theorem prepare_twice_rezero_only (pd : ProblemData) (s0 : AsmFlags)
    (rhsLen : Nat) (pat : List (Int × Int)) (r1 r2 : PrepResult)
    (hnd : 0 < pd.ndof)
    (h1 : r1 = prepare_sparse_structure pd true true s0 rhsLen)
    (h2 : r2 = prepare_sparse_structure pd true true r1.flags r1.rhsLen) :
    r2.matOps = [MatOp.zero] ∧ r2.vecOps = [VecOp.zero] ∧
    applyMatOps (applyMatOps pat r1.matOps) r2.matOps
      = applyMatOps pat r1.matOps := by
  subst h2
  subst h1
  rw [prepare_full_call_flags]
  obtain ⟨hm, hv⟩ :=
    prepare_reusable_rezero pd _ (prepare_full_call_rhsLen pd s0 rhsLen hnd)
  refine ⟨hm, hv, ?_⟩
  rw [hm]
  rfl

/-- Witness for C1: the two-field problem assembled twice from a cold
start. -/
theorem prepare_twice_rezero_only_witness :
    0 < pdTwoField.ndof ∧
    (prepare_sparse_structure pdTwoField true true
        (prepare_sparse_structure pdTwoField true true ⟨false, false⟩ 0).flags
        (prepare_sparse_structure pdTwoField true true
          ⟨false, false⟩ 0).rhsLen).matOps
      = [MatOp.zero] :=
  ⟨by decide,
    (prepare_twice_rezero_only pdTwoField ⟨false, false⟩ 0 [] _ _
      (by decide) rfl rfl).1⟩

theorem preAddsNonneg_nil : preAddsNonneg [] := by
  intro i j h
  exact absurd h (List.not_mem_nil _)

theorem preAddsNonneg_append (l1 l2 : List MatOp)
    (h1 : preAddsNonneg l1) (h2 : preAddsNonneg l2) :
    preAddsNonneg (l1 ++ l2) := by
  intro i j h
  rcases List.mem_append.mp h with h | h
  exacts [h1 i j h, h2 i j h]

theorem localOps_nonneg (K : Nat) (blocks : List (List Bool))
    (st : StructState) : preAddsNonneg (localOps K blocks st) := by
  intro i j h
  simp only [localOps, List.mem_flatMap, List.mem_range] at h
  obtain ⟨m, -, n, -, h⟩ := h
  split_ifs at h with hblk
  · simp only [List.mem_flatMap] at h
    obtain ⟨di, -, h⟩ := h
    split_ifs at h with hdi
    · simp only [List.mem_filterMap] at h
      obtain ⟨dj, -, h⟩ := h
      split_ifs at h with hdj
      injection h with h2
      injection h2 with hi hj
      subst hi
      subst hj
      exact ⟨hdi, hdj⟩
    · exact absurd h (List.not_mem_nil _)
  · exact absurd h (List.not_mem_nil _)

theorem guarded_pair_nonneg (bme bem : Bool) (ami dj : Int)
    (hami : 0 ≤ ami) :
    preAddsNonneg (if 0 ≤ dj then
      (if bme then [MatOp.preAdd ami dj] else []) ++
        (if bem then [MatOp.preAdd dj ami] else [])
    else []) := by
  intro i j h
  split_ifs at h with hdj hbme hbem
  · simp at h
    rcases h with ⟨hi, hj⟩ | ⟨hi, hj⟩ <;> omega
  · simp at h
    obtain ⟨hi, hj⟩ := h
    omega
  · simp at h
    obtain ⟨hi, hj⟩ := h
    omega
  · simp at h
  · simp at h

theorem jLoop_nonneg (bme bem : Bool) (ami : Int) (an : AsmList)
    (hami : 0 ≤ ami) :
    ∀ (j : Nat) (anAlive : Bool) (acc : List MatOp),
      preAddsNonneg acc →
      preAddsNonneg (jLoop bme bem ami an j anAlive acc).1 := by
  intro j anAlive acc
  induction j, anAlive, acc using jLoop.induct bme bem ami an with
  | case1 j anAlive acc hdead =>
    intro hacc
    simpa [jLoop, hdead] using hacc
  | case2 j anAlive acc halive hj dj acc' ih =>
    intro hacc
    rw [jLoop, if_neg halive, dif_pos hj]
    exact ih (preAddsNonneg_append _ _ hacc
      (guarded_pair_nonneg bme bem ami dj hami))
  | case3 j anAlive acc halive hj =>
    intro hacc
    rw [jLoop, if_neg halive, dif_neg hj]
    exact hacc

theorem iLoop_nonneg (bme bem : Bool) (an : AsmList) :
    ∀ (rest : List Int) (anAlive : Bool) (acc : List MatOp)
      (err : Option MemError), preAddsNonneg acc →
      preAddsNonneg (iLoop bme bem an rest anAlive acc err).1 := by
  intro rest
  induction rest with
  | nil =>
    intro anAlive acc err hacc
    simpa [iLoop] using hacc
  | cons ami rest ih =>
    intro anAlive acc err hacc
    cases err with
    | some e => simpa [iLoop] using hacc
    | none =>
      by_cases hami : 0 ≤ ami
      · simp only [iLoop, hami, if_true]
        exact ih _ _ _ (jLoop_nonneg bme bem ami an hami 0 anAlive acc hacc)
      · simp only [iLoop, hami, if_false]
        exact ih _ _ _ hacc

theorem neighBody_nonneg (blocks : List (List Bool)) (st : StructState)
    (m el ed neigh : Nat) (acc : List MatOp) (hacc : preAddsNonneg acc) :
    preAddsNonneg (neighBody blocks st m el ed neigh acc).1 := by
  unfold neighBody
  split_ifs with hguard
  · exact iLoop_nonneg _ _ _ _ _ _ _ hacc
  · exact hacc

theorem neighLoop_nonneg (blocks : List (List Bool)) (st : StructState)
    (m el ed : Nat) :
    ∀ (neigh : Nat) (arraysAlive : Bool) (acc : List MatOp),
      preAddsNonneg acc →
      preAddsNonneg (neighLoop blocks st m el ed neigh arraysAlive acc).1 := by
  intro neigh arraysAlive acc
  induction neigh, arraysAlive, acc using neighLoop.induct blocks st m el ed with
  | case1 neigh arraysAlive acc hdead =>
    intro hacc
    simpa [neighLoop, hdead] using hacc
  | case2 neigh arraysAlive acc halive hn acc' fst e hstep =>
    intro hacc
    rw [neighLoop, if_neg halive, dif_pos hn, hstep]
    have := neighBody_nonneg blocks st m el ed neigh acc hacc
    rw [hstep] at this
    exact this
  | case3 neigh acc hn acc' fst hstep halive ih =>
    intro hacc
    rw [neighLoop, if_neg (by simp), dif_pos hn, hstep]
    have hb := neighBody_nonneg blocks st m el ed neigh acc hacc
    rw [hstep] at hb
    exact ih hb
  | case4 neigh arraysAlive acc halive hn acc' fst hstep hnotalive =>
    intro hacc
    simp at halive
    exact absurd halive hnotalive
  | case5 neigh arraysAlive acc halive hn =>
    intro hacc
    rw [neighLoop, if_neg halive, dif_neg hn]
    exact hacc

theorem edLoop_nonneg (blocks : List (List Bool)) (st : StructState)
    (m el : Nat) :
    ∀ (eds : List Nat) (alive : Bool) (acc : List MatOp)
      (err : Option MemError), preAddsNonneg acc →
      preAddsNonneg (edLoop blocks st m el eds alive acc err).1 := by
  intro eds
  induction eds with
  | nil =>
    intro alive acc err hacc
    simpa [edLoop] using hacc
  | cons ed rest ih =>
    intro alive acc err hacc
    cases err with
    | some e => simpa [edLoop] using hacc
    | none =>
      simp only [edLoop]
      exact ih _ _ _ (neighLoop_nonneg blocks st m el ed 0 alive acc hacc)

theorem elLoop_nonneg (blocks : List (List Bool)) (st : StructState)
    (m : Nat) :
    ∀ (els : List Nat) (alive : Bool) (acc : List MatOp)
      (err : Option MemError), preAddsNonneg acc →
      preAddsNonneg (elLoop blocks st m els alive acc err).1 := by
  intro els
  induction els with
  | nil =>
    intro alive acc err hacc
    simpa [elLoop] using hacc
  | cons el rest ih =>
    intro alive acc err hacc
    cases err with
    | some e => simpa [elLoop] using hacc
    | none =>
      simp only [elLoop]
      exact ih _ _ _ (edLoop_nonneg blocks st m el _ alive acc none hacc)

theorem mLoop_nonneg (K : Nat) (blocks : List (List Bool))
    (st : StructState) :
    ∀ (ms : List Nat) (alive : Bool) (acc : List MatOp)
      (err : Option MemError), preAddsNonneg acc →
      preAddsNonneg (mLoop K blocks st ms alive acc err).1 := by
  intro ms
  induction ms with
  | nil =>
    intro alive acc err hacc
    simpa [mLoop] using hacc
  | cons m rest ih =>
    intro alive acc err hacc
    cases err with
    | some e => simpa [mLoop] using hacc
    | none =>
      simp only [mLoop]
      exact ih _ _ _ (elLoop_nonneg blocks st m _ alive acc none hacc)

theorem dgStateRun_nonneg (K : Nat) (blocks : List (List Bool))
    (st : StructState) : preAddsNonneg (dgStateRun K blocks st).1 := by
  unfold dgStateRun
  exact mLoop_nonneg K blocks st _ true [] none preAddsNonneg_nil

theorem stateStep_nonneg (pd : ProblemData)
    (r : List MatOp × Option MemError) (st : StructState)
    (hacc : preAddsNonneg r.1) :
    preAddsNonneg (stateStep pd r st).1 := by
  have hdg := dgStateRun_nonneg pd.spaces_size pd.blocks st
  unfold stateStep
  match r with
  | (ops, some e) => exact hacc
  | (ops, none) =>
    split_ifs with hisdg
    · rcases hd : dgStateRun pd.spaces_size pd.blocks st with ⟨dops, derr⟩
      rw [hd] at hdg
      cases derr with
      | some e => exact preAddsNonneg_append _ _ hacc hdg
      | none =>
        exact preAddsNonneg_append _ _
          (preAddsNonneg_append _ _ hacc hdg)
          (localOps_nonneg pd.spaces_size pd.blocks st)
    · exact preAddsNonneg_append _ _ hacc
        (localOps_nonneg pd.spaces_size pd.blocks st)

theorem structuralPass_nonneg (pd : ProblemData) :
    preAddsNonneg (structuralPass pd).1 := by
  unfold structuralPass
  have aux : ∀ (states : List StructState)
      (r : List MatOp × Option MemError), preAddsNonneg r.1 →
      preAddsNonneg (List.foldl (stateStep pd) r states).1 := by
    intro states
    induction states with
    | nil => intro r h; simpa using h
    | cons st rest ih =>
      intro r h
      exact ih _ (stateStep_nonneg pd r st h)
  exact aux pd.states ([], none) preAddsNonneg_nil

theorem prepare_matOps_nonneg (pd : ProblemData) (hasMat hasRhs : Bool)
    (s : AsmFlags) (rhsLen : Nat) :
    preAddsNonneg
      (prepare_sparse_structure pd hasMat hasRhs s rhsLen).matOps := by
  simp only [prepare_sparse_structure]
  apply preAddsNonneg_append
  · split_ifs
    · intro i j h
      simp at h
    · exact preAddsNonneg_nil
  · split_ifs
    · apply preAddsNonneg_append
      · apply preAddsNonneg_append
        · intro i j h
          simp at h
        · exact structuralPass_nonneg pd
      · intro i j h
        simp at h
    · exact preAddsNonneg_nil

/-- C6 (sentinel skip): in every structural registration performed by
`prepare_sparse_structure` — DG neighbor path and non-DG local-coupling
path alike — `pre_add_ij` is never called with a negative row or
column index: assembly-list entries carrying the eliminated-dof
sentinel are skipped. -/
theorem pre_add_ij_nonnegative (pd : ProblemData) (hasMat hasRhs : Bool)
    (s : AsmFlags) (rhsLen : Nat) (i j : Int)
    (hmem : MatOp.preAdd i j ∈
      (prepare_sparse_structure pd hasMat hasRhs s rhsLen).matOps) :
    0 ≤ i ∧ 0 ≤ j :=
  prepare_matOps_nonneg pd hasMat hasRhs s rhsLen i j hmem

/-- Witness for C6: the one-field problem whose assembly list holds
dof `0` next to an eliminated dof `-1`; the (0,0) registration is in
the trace and is non-negative. -/
theorem pre_add_ij_nonnegative_witness :
    MatOp.preAdd 0 0 ∈
      (prepare_sparse_structure pdOneField true true
        ⟨false, false⟩ 0).matOps ∧
    (0 ≤ (0 : Int) ∧ 0 ≤ (0 : Int)) :=
  ⟨by decide,
    pre_add_ij_nonnegative pdOneField true true ⟨false, false⟩ 0 0 0
      (by decide)⟩

/-- C5 (code bug in the DG pre-add block): on a DG configuration whose
single edge has two neighbor elements (non-conforming interface), the
run registers the first neighbor's coupling — dof pair `(0, 1)` and its
transpose `(1, 0)` — and then reads freed memory: `delete an;` sits
inside the `j` loop and the array-deallocation block sits inside the
innermost `neigh` loop, so iteration over the remaining neighbors is a
use-after-free and the second neighbor's dof `2` is never registered. -/
theorem dg_neighbor_pass_use_after_free :
    dgStateRun 1 [[true]] stTwoNeighbors
      = ([MatOp.preAdd 0 1, MatOp.preAdd 1 0],
          some MemError.useAfterFree) := by
  simp [dgStateRun, mLoop, elLoop, edLoop, neighLoop, neighBody, iLoop,
    jLoop, blockAt, stTwoNeighbors]

end Hermes2D
